import Mathlib

/-!
Shallow embedding of
`source/packages/@aws-accelerator/constructs/lib/aws-organizations/create-accounts-status/index.ts`
(the asynchronous account-provisioning lambda handler).

Modelling conventions:
- The remote control plane (AWS Organizations) and the HTTP status codes of
  the DynamoDB document-client calls are an explicit oracle `Env`: each remote
  call is a function field, so one `Env` value fixes every response.
- The two DynamoDB tables are lists of rows threaded through the handler:
  the request table is keyed by `accountEmail` and stores an `AccountConfig`
  (the source stores it JSON-serialised in the `accountConfig` attribute);
  the GovCloud mapping table is keyed by `commericalAccountId` (the source's
  spelling).  A DynamoDB `put` replaces the row with the same key, modelled
  as filter-then-append; a `delete` removes the row with the key; a write
  whose HTTP status is not 200 leaves the table unchanged and returns false.
- Every remote/store call is also recorded in a trace of `CallEvent`s so
  that "the handler calls Create" is a statement about the trace.
- A TypeScript non-null assertion (`x!`) on an absent value is modelled as
  aborting the invocation with `Outcome.errorDeref`: at runtime the absent
  value either raises a TypeError immediately (`rootOrg!.Id`) or is rejected
  by the AWS SDK parameter validation of the very next call.
- `throw new Error(...)` becomes the explicit outcomes `errorCreateFailed`
  ("Could not create account ...") and `errorUpdateFailed`
  ("Unable to update DynamoDB account record with request id").
-/

/-- The `AccountConfig` interface of the source (lines 29-37).
`createRequestId?: string | undefined` becomes `Option String`. -/
structure AccountConfig where
  name : String
  description : String
  email : String
  enableGovCloud : String
  organizationalUnit : String
  organizationalUnitId : String
  createRequestId : Option String
deriving DecidableEq, Repr

/-- The fields of `CreateAccountStatus` that the handler reads; each is
optional in the AWS SDK type. -/
structure CreateAccountStatus where
  State : Option String
  Id : Option String
  AccountId : Option String
  GovCloudAccountId : Option String
  AccountName : Option String
  FailureReason : Option String
deriving DecidableEq, Repr

/-- `CreateAccountResponse` / `DescribeCreateAccountStatusResponse`: the
`CreateAccountStatus` member is optional. -/
structure CreateAccountResponse where
  CreateAccountStatus : Option CreateAccountStatus
deriving DecidableEq, Repr

/-- One element of the `listRoots` response; `Id` and `Name` are optional. -/
structure Root where
  Id : Option String
  Name : Option String
deriving DecidableEq, Repr

/-- A row of the GovCloud account mapping table (keyed by
`commericalAccountId`, the source's spelling). -/
structure GovCloudMapping where
  commericalAccountId : String
  govCloudAccountId : String
  accountName : String
deriving DecidableEq, Repr

/-- The durable stores: the new-org-accounts request table (rows keyed by
`accountEmail`, carrying the parsed `accountConfig`) and the GovCloud
mapping table. -/
structure Stores where
  requests : List (String × AccountConfig)
  mappings : List GovCloudMapping
deriving DecidableEq, Repr

/-- Oracle for the remote control plane and for the HTTP status codes of the
document-client writes.  One `Env` fixes every response of one invocation. -/
structure Env where
  createOrganizationAccount : String → String → CreateAccountResponse
  createGovCloudAccount : String → String → CreateAccountResponse
  describeCreateAccountStatus : String → CreateAccountResponse
  listRoots : List Root
  moveStatusCode : Nat
  putRequestStatusCode : Nat
  deleteStatusCode : Nat
  putMappingStatusCode : Nat

/-- Trace of the remote and store calls an invocation performs. -/
inductive CallEvent where
  | createOrg (email name : String)
  | createGov (email name : String)
  | describeStatus (requestId : String)
  | listRootsCall
  | moveAccount (accountId destinationParentId sourceParentId : String)
  | putRequest (accountEmail : String) (cfg : AccountConfig)
  | deleteRequest (accountEmail : String)
  | putMapping (m : GovCloudMapping)
deriving DecidableEq, Repr

/-- Whether an event is one of the two Create API calls. -/
def CallEvent.isCreate : CallEvent → Bool
  | .createOrg _ _ => true
  | .createGov _ _ => true
  | _ => false

/-- Outcome of one invocation of the handler. -/
inductive Outcome where
  | ok (isComplete : Bool)
  | errorCreateFailed
  | errorUpdateFailed
  | errorDeref
deriving DecidableEq, Repr

/-- Result of one invocation: the outcome, the stores as left behind
(writes performed before an abort persist), and the call trace. -/
structure HandlerResult where
  outcome : Outcome
  stores : Stores
  trace : List CallEvent
deriving DecidableEq, Repr

/-- DynamoDB `put` on the request table: replace the row keyed by
`accountEmail` (upsert). -/
def upsertRequestRow (rows : List (String × AccountConfig)) (accountEmail : String)
    (cfg : AccountConfig) : List (String × AccountConfig) :=
  rows.filter (fun r => !(r.1 == accountEmail)) ++ [(accountEmail, cfg)]

/-- DynamoDB `put` on the mapping table: replace the row keyed by
`commericalAccountId` (upsert). -/
def putMappingRow (rows : List GovCloudMapping) (m : GovCloudMapping) :
    List GovCloudMapping :=
  rows.filter (fun r => !(r.commericalAccountId == m.commericalAccountId)) ++ [m]

/-- `getSingleAccountConfigFromTable` (source lines 144-160): scan with
`Limit: 1`; if the scan returns an item, parse its `accountConfig`. -/
def getSingleAccountConfigFromTable (s : Stores) : List AccountConfig :=
  match s.requests with
  | [] => []
  | row :: _ => [row.2]

/-- `updateAccountConfig` (source lines 219-234): put the row keyed by
`accountConfig.email`; true iff the HTTP status is 200. -/
def updateAccountConfig (env : Env) (s : Stores) (cfg : AccountConfig) :
    Bool × Stores × List CallEvent :=
  if env.putRequestStatusCode = 200 then
    (true, { s with requests := upsertRequestRow s.requests cfg.email cfg },
      [CallEvent.putRequest cfg.email cfg])
  else
    (false, s, [CallEvent.putRequest cfg.email cfg])

/-- `deleteSingleAccountConfigFromTable` (source lines 162-176): delete the
row keyed by the email; true iff the HTTP status is 200. -/
def deleteSingleAccountConfigFromTable (env : Env) (s : Stores)
    (accountToDeleteEmail : String) : Bool × Stores × List CallEvent :=
  if env.deleteStatusCode = 200 then
    (true,
      { s with requests := s.requests.filter (fun r => !(r.1 == accountToDeleteEmail)) },
      [CallEvent.deleteRequest accountToDeleteEmail])
  else
    (false, s, [CallEvent.deleteRequest accountToDeleteEmail])

/-- `saveGovCloudAccountMapping` (source lines 259-279): unconditional put of
the mapping row; true iff the HTTP status is 200. -/
def saveGovCloudAccountMapping (env : Env) (s : Stores)
    (commericalAccountId govCloudAccountId accountName : String) :
    Bool × Stores × List CallEvent :=
  let m : GovCloudMapping :=
    { commericalAccountId := commericalAccountId,
      govCloudAccountId := govCloudAccountId,
      accountName := accountName }
  if env.putMappingStatusCode = 200 then
    (true, { s with mappings := putMappingRow s.mappings m }, [CallEvent.putMapping m])
  else
    (false, s, [CallEvent.putMapping m])

/-- `moveAccountToOrgIdFromRoot` (source lines 236-257): list the roots,
find the one named "Root", move the account from it into `orgId`.
`none` models the abort from `rootOrg!.Id!` when the root (or its id) is
absent; otherwise the boolean is the 200-check of the move call (its
failure is merely logged, the function returns false). -/
def moveAccountToOrgIdFromRoot (env : Env) (accountId orgId : String) :
    Option Bool × List CallEvent :=
  match env.listRoots.find? (fun item => item.Name == some "Root") with
  | none => (none, [CallEvent.listRootsCall])
  | some rootOrg =>
    match rootOrg.Id with
    | none => (none, [CallEvent.listRootsCall])
    | some rootId =>
      (some (env.moveStatusCode = 200),
        [CallEvent.listRootsCall, CallEvent.moveAccount accountId orgId rootId])

/-- The move-then-delete tail of a `SUCCEEDED` branch, after the optional
mapping write: move the account out of the root (result discarded, as in the
source), then delete the request row (result discarded); `break` then falls
through to `return IsComplete: false`. -/
def handleMove (env : Env) (s : Stores) (cfg : AccountConfig)
    (st : CreateAccountStatus) (tr : List CallEvent) : HandlerResult :=
  match st.AccountId with
  | none => ⟨.errorDeref, s, tr⟩
  | some aid =>
    match moveAccountToOrgIdFromRoot env aid cfg.organizationalUnitId with
    | (none, mtr) => ⟨.errorDeref, s, tr ++ mtr⟩
    | (some _, mtr) =>
      ⟨.ok false, (deleteSingleAccountConfigFromTable env s cfg.email).2.1,
        tr ++ mtr ++ (deleteSingleAccountConfigFromTable env s cfg.email).2.2⟩

/-- The shared tail of both `SUCCEEDED` branches of the handler
(source lines 84-101 and 117-131): optionally save the GovCloud mapping,
then move the account out of the root, then delete the request row. -/
def handleSucceeded (env : Env) (s : Stores) (cfg : AccountConfig)
    (st : CreateAccountStatus) : HandlerResult :=
  match st.GovCloudAccountId with
  | some gid =>
    match st.AccountId with
    | none => ⟨.errorDeref, s, []⟩
    | some aid =>
      match st.AccountName with
      | none => ⟨.errorDeref, s, []⟩
      | some aname =>
        handleMove env (saveGovCloudAccountMapping env s aid gid aname).2.1 cfg st
          (saveGovCloudAccountMapping env s aid gid aname).2.2
  | none => handleMove env s cfg st []

/-- The Create call of the fresh-request branch (source lines 66-70):
GovCloud variant iff `enableGovCloud` is exactly the string "true". -/
def createResp (env : Env) (cfg : AccountConfig) : CreateAccountResponse :=
  if cfg.enableGovCloud = "true" then
    env.createGovCloudAccount cfg.email cfg.name
  else
    env.createOrganizationAccount cfg.email cfg.name

/-- The trace event of the Create call of the fresh-request branch. -/
def createEvent (cfg : AccountConfig) : CallEvent :=
  if cfg.enableGovCloud = "true" then
    CallEvent.createGov cfg.email cfg.name
  else
    CallEvent.createOrg cfg.email cfg.name

/-- The fresh-request branch of the handler (source lines 65-107):
call Create, then switch on the returned state. -/
def createPath (env : Env) (s : Stores) (cfg : AccountConfig) : HandlerResult :=
  match (createResp env cfg).CreateAccountStatus with
  | none => ⟨.errorCreateFailed, s, [createEvent cfg]⟩
  | some st =>
    if st.State = some "IN_PROGRESS" then
      if (updateAccountConfig env s { cfg with createRequestId := st.Id }).1 then
        ⟨.ok false, (updateAccountConfig env s { cfg with createRequestId := st.Id }).2.1,
          createEvent cfg :: (updateAccountConfig env s { cfg with createRequestId := st.Id }).2.2⟩
      else
        ⟨.errorUpdateFailed, (updateAccountConfig env s { cfg with createRequestId := st.Id }).2.1,
          createEvent cfg :: (updateAccountConfig env s { cfg with createRequestId := st.Id }).2.2⟩
    else if st.State = some "SUCCEEDED" then
      ⟨(handleSucceeded env s cfg st).outcome, (handleSucceeded env s cfg st).stores,
        createEvent cfg :: (handleSucceeded env s cfg st).trace⟩
    else
      ⟨.errorCreateFailed, s, [createEvent cfg]⟩

/-- The already-submitted branch of the handler (source lines 108-138):
describe the creation status, then switch on the state. -/
def describePath (env : Env) (s : Stores) (cfg : AccountConfig) (rid : String) :
    HandlerResult :=
  match (env.describeCreateAccountStatus rid).CreateAccountStatus with
  | none => ⟨.errorCreateFailed, s, [CallEvent.describeStatus rid]⟩
  | some st =>
    if st.State = some "IN_PROGRESS" then
      ⟨.ok false, s, [CallEvent.describeStatus rid]⟩
    else if st.State = some "SUCCEEDED" then
      ⟨(handleSucceeded env s cfg st).outcome, (handleSucceeded env s cfg st).stores,
        CallEvent.describeStatus rid :: (handleSucceeded env s cfg st).trace⟩
    else
      ⟨.errorCreateFailed, s, [CallEvent.describeStatus rid]⟩

/-- The lambda handler (source lines 44-142). -/
def handler (env : Env) (s : Stores) : HandlerResult :=
  match getSingleAccountConfigFromTable s with
  | [] => ⟨.ok true, s, []⟩
  | cfg :: _ =>
    match cfg.createRequestId with
    | none => createPath env s cfg
    | some rid =>
      if rid = "" then createPath env s cfg else describePath env s cfg rid

/-! ### Concrete fixtures used by scenario theorems, witnesses and
counterexamples -/

/-- A Create/Describe response whose status is `IN_PROGRESS` with the given
request id. -/
def inProgressResp (rid : String) : CreateAccountResponse :=
  ⟨some { State := some "IN_PROGRESS", Id := some rid, AccountId := none,
          GovCloudAccountId := none, AccountName := none, FailureReason := none }⟩

/-- A Create/Describe response whose status is `SUCCEEDED` with the given
account id and no GovCloud account id. -/
def succeededResp (aid : String) : CreateAccountResponse :=
  ⟨some { State := some "SUCCEEDED", Id := none, AccountId := some aid,
          GovCloudAccountId := none, AccountName := none, FailureReason := none }⟩

/-- A Create/Describe response whose status is `FAILED`. -/
def failedResp : CreateAccountResponse :=
  ⟨some { State := some "FAILED", Id := none, AccountId := none,
          GovCloudAccountId := none, AccountName := none,
          FailureReason := some "EMAIL_ALREADY_EXISTS" }⟩

/-- The request of the spec's scenario: `variantFlag` false (stored as the
string "false"), target group "ou-1", never submitted. -/
def scenarioCfg : AccountConfig :=
  { name := "Acct", description := "d", email := "a@x.com",
    enableGovCloud := "false", organizationalUnit := "ou",
    organizationalUnitId := "ou-1", createRequestId := none }

/-- The same request once submitted (request id "req-1" attached). -/
def submittedCfg : AccountConfig := { scenarioCfg with createRequestId := some "req-1" }

/-- The scenario environment: Create returns in-progress with id "req-1",
Describe-Status of "req-1" returns succeeded with account id "111", the
hierarchy has one root named "Root", and every store write succeeds. -/
def scenarioEnv : Env :=
  { createOrganizationAccount := fun _ _ => inProgressResp "req-1",
    createGovCloudAccount := fun _ _ => failedResp,
    describeCreateAccountStatus := fun rid =>
      if rid = "req-1" then succeededResp "111" else failedResp,
    listRoots := [{ Id := some "r-1", Name := some "Root" }],
    moveStatusCode := 200, putRequestStatusCode := 200,
    deleteStatusCode := 200, putMappingStatusCode := 200 }

/-- The scenario store: exactly one pending request, no mappings. -/
def scenarioStore : Stores := { requests := [("a@x.com", scenarioCfg)], mappings := [] }

/-- A store whose single request has already been submitted. -/
def submittedStore : Stores := { requests := [("a@x.com", submittedCfg)], mappings := [] }

/-- Environment in which the move call reports a non-success status. -/
def moveFailEnv : Env := { scenarioEnv with moveStatusCode := 500 }

/-- Environment in which the delete of the request row reports a
non-success status. -/
def deleteFailEnv : Env := { scenarioEnv with deleteStatusCode := 500 }

/-- Environment in which persisting the request id reports a non-success
status. -/
def putFailEnv : Env := { scenarioEnv with putRequestStatusCode := 500 }

/-- Environment in which the list-roots call finds no root named "Root". -/
def noRootEnv : Env := { scenarioEnv with listRoots := [{ Id := some "r-1", Name := some "NotRoot" }] }

/-- A request whose `enableGovCloud` field holds the string "True"
(not exactly "true"). -/
def mixedCaseCfg : AccountConfig := { scenarioCfg with enableGovCloud := "True" }

/-- A store holding the mixed-case-flag request. -/
def mixedCaseStore : Stores := { requests := [("a@x.com", mixedCaseCfg)], mappings := [] }

/-- Responses in the success-terminal state carry an `AccountId` (and an
`AccountName` whenever a `GovCloudAccountId` is present): the precondition
under which the success-path dereferences cannot fail. -/
def GoodStatus (resp : CreateAccountResponse) : Prop :=
  ∀ st, resp.CreateAccountStatus = some st → st.State = some "SUCCEEDED" →
    st.AccountId ≠ none ∧ (st.GovCloudAccountId ≠ none → st.AccountName ≠ none)

/-- The list-roots result contains a root named "Root", and that root has
an id. -/
def RootOk (env : Env) : Prop :=
  ∃ rootOrg, env.listRoots.find? (fun item => item.Name == some "Root") = some rootOrg ∧
    rootOrg.Id ≠ none

/-- Environment precondition for the success-path dereferences: every
response is a `GoodStatus`, and the root found by name "Root" exists and
has an id. -/
def GoodEnv (env : Env) : Prop :=
  (∀ email name, GoodStatus (env.createOrganizationAccount email name)) ∧
  (∀ email name, GoodStatus (env.createGovCloudAccount email name)) ∧
  (∀ rid, GoodStatus (env.describeCreateAccountStatus rid)) ∧
  RootOk env

/-- Environment whose Describe-Status always reports in-progress. -/
def waitingEnv : Env :=
  { scenarioEnv with describeCreateAccountStatus := fun _ => inProgressResp "req-1" }

/-- A succeeded response that also carries a GovCloud account id and an
account name. -/
def govSucceededResp : CreateAccountResponse :=
  ⟨some { State := some "SUCCEEDED", Id := none, AccountId := some "111",
          GovCloudAccountId := some "g-111", AccountName := some "Acct",
          FailureReason := none }⟩

/-- Environment in which Describe-Status reports a GovCloud success but the
mapping-table put reports a non-success status. -/
def mappingFailEnv : Env :=
  { scenarioEnv with
      describeCreateAccountStatus := fun _ => govSucceededResp,
      putMappingStatusCode := 500 }

/-! ### Helper lemmas -/

/-- `handleMove` ends in `ok false` or in the dereference abort. -/
theorem handleMove_outcome (env : Env) (s : Stores) (cfg : AccountConfig)
    (st : CreateAccountStatus) (tr : List CallEvent) :
    (handleMove env s cfg st tr).outcome = .ok false ∨
      (handleMove env s cfg st tr).outcome = .errorDeref := by
  unfold handleMove
  split
  · right; rfl
  · split
    · right; rfl
    · left; rfl

/-- `handleSucceeded` ends in `ok false` or in the dereference abort. -/
theorem handleSucceeded_outcome (env : Env) (s : Stores) (cfg : AccountConfig)
    (st : CreateAccountStatus) :
    (handleSucceeded env s cfg st).outcome = .ok false ∨
      (handleSucceeded env s cfg st).outcome = .errorDeref := by
  unfold handleSucceeded
  split
  · split
    · right; rfl
    · split
      · right; rfl
      · exact handleMove_outcome ..
  · exact handleMove_outcome ..

/-- `createPath` never reports completion. -/
theorem createPath_ne_ok_true (env : Env) (s : Stores) (cfg : AccountConfig) :
    (createPath env s cfg).outcome ≠ .ok true := by
  unfold createPath
  split
  · simp
  · rename_i st heq
    split
    · split <;> simp
    · split
      · rcases handleSucceeded_outcome env s cfg st with h | h <;> simp [h]
      · simp

/-- `describePath` never reports completion. -/
theorem describePath_ne_ok_true (env : Env) (s : Stores) (cfg : AccountConfig)
    (rid : String) : (describePath env s cfg rid).outcome ≠ .ok true := by
  unfold describePath
  split
  · simp
  · rename_i st heq
    split
    · simp
    · split
      · rcases handleSucceeded_outcome env s cfg st with h | h <;> simp [h]
      · simp

/-- C5: `advance()` returns `complete = true` iff the scan of the request
store selects no pending request; an invocation that selected a request
either returns `complete = false` or aborts, never completion. -/
theorem advanceCompleteIffEmpty (env : Env) (s : Stores) :
    (handler env s).outcome = .ok true ↔ getSingleAccountConfigFromTable s = [] := by
  unfold handler
  cases h : getSingleAccountConfigFromTable s with
  | nil => simp
  | cons cfg rest =>
    simp only [List.cons_ne_nil, iff_false]
    cases cfg.createRequestId with
    | none => exact createPath_ne_ok_true env s cfg
    | some rid =>
      by_cases hr : rid = ""
      · simpa [hr] using createPath_ne_ok_true env s cfg
      · simpa [hr] using describePath_ne_ok_true env s cfg rid

/-- C6: the spec's three-call scenario.  Call 1 persists
`createRequestId = "req-1"` and returns `complete = false`; call 2 moves
account "111" into "ou-1", deletes the request row, writes no mapping row,
and returns `complete = false`; call 3 finds the store empty and returns
`complete = true`. -/
theorem scenarioThreeCalls :
    (handler scenarioEnv scenarioStore).outcome = .ok false ∧
    (handler scenarioEnv scenarioStore).stores.requests = [("a@x.com", submittedCfg)] ∧
    (handler scenarioEnv (handler scenarioEnv scenarioStore).stores).outcome = .ok false ∧
    CallEvent.moveAccount "111" "ou-1" "r-1" ∈
      (handler scenarioEnv (handler scenarioEnv scenarioStore).stores).trace ∧
    (handler scenarioEnv (handler scenarioEnv scenarioStore).stores).stores.requests = [] ∧
    (handler scenarioEnv (handler scenarioEnv scenarioStore).stores).stores.mappings = [] ∧
    (handler scenarioEnv
      (handler scenarioEnv (handler scenarioEnv scenarioStore).stores).stores).outcome
        = .ok true := by
  decide

/-- Re-putting a mapping row with the same key is absorbed: the upsert keeps
one row per key. -/
theorem putMappingRow_idem (rows : List GovCloudMapping) (m : GovCloudMapping) :
    putMappingRow (putMappingRow rows m) m = putMappingRow rows m := by
  unfold putMappingRow
  simp [List.filter_append, List.filter_filter]

/-- After an upsert, the rows keyed by the written key are exactly the
written row. -/
theorem putMappingRow_filter_key (rows : List GovCloudMapping) (m : GovCloudMapping) :
    (putMappingRow rows m).filter
      (fun r => r.commericalAccountId == m.commericalAccountId) = [m] := by
  unfold putMappingRow
  simp [List.filter_append, List.filter_filter]

/-- C8: the IdentityMapping write is an unconditional upsert keyed by the
primary (commercial) account id: performing the same write twice leaves the
stores exactly as performing it once, and after a confirmed write the
mapping table holds exactly one row for that primary id, with the latest
values. -/
theorem mappingWriteIdempotent (env : Env) (s : Stores) (aid gid aname : String) :
    (saveGovCloudAccountMapping env
        (saveGovCloudAccountMapping env s aid gid aname).2.1 aid gid aname).2.1 =
      (saveGovCloudAccountMapping env s aid gid aname).2.1 ∧
    (env.putMappingStatusCode = 200 →
      ((saveGovCloudAccountMapping env s aid gid aname).2.1).mappings.filter
          (fun r => r.commericalAccountId == aid) = [⟨aid, gid, aname⟩]) := by
  unfold saveGovCloudAccountMapping
  by_cases h : env.putMappingStatusCode = 200
  · simp [h, putMappingRow_idem]
    exact putMappingRow_filter_key s.mappings ⟨aid, gid, aname⟩
  · simp [h]

/-- Witness for C8 at a concrete store and mapping. -/
theorem mappingWriteIdempotent_witness :
    (saveGovCloudAccountMapping scenarioEnv
        (saveGovCloudAccountMapping scenarioEnv scenarioStore "111" "g-111" "Acct").2.1
        "111" "g-111" "Acct").2.1 =
      (saveGovCloudAccountMapping scenarioEnv scenarioStore "111" "g-111" "Acct").2.1 ∧
    ((saveGovCloudAccountMapping scenarioEnv scenarioStore "111" "g-111" "Acct").2.1).mappings.filter
        (fun r => r.commericalAccountId == "111") = [⟨"111", "g-111", "Acct"⟩] :=
  ⟨(mappingWriteIdempotent scenarioEnv scenarioStore "111" "g-111" "Acct").1,
   (mappingWriteIdempotent scenarioEnv scenarioStore "111" "g-111" "Acct").2 (by decide)⟩

/-- The trace of the move step contains no Create call. -/
theorem moveAccountToOrgIdFromRoot_trace_no_create (env : Env) (aid orgId : String) :
    ∀ e ∈ (moveAccountToOrgIdFromRoot env aid orgId).2, e.isCreate = false := by
  unfold moveAccountToOrgIdFromRoot
  split
  · simp [CallEvent.isCreate]
  · split
    · simp [CallEvent.isCreate]
    · intro e he
      simp only [List.mem_cons, List.not_mem_nil, or_false] at he
      rcases he with rfl | rfl <;> rfl

/-- The trace of `handleMove` adds no Create call beyond its argument
trace. -/
theorem handleMove_trace_no_create (env : Env) (s : Stores) (cfg : AccountConfig)
    (st : CreateAccountStatus) (tr : List CallEvent) :
    ∀ e ∈ (handleMove env s cfg st tr).trace, e ∈ tr ∨ e.isCreate = false := by
  unfold handleMove
  split
  · intro e he; exact .inl he
  · rename_i aid haid
    split
    · rename_i mtr heq
      intro e he
      rcases List.mem_append.mp he with h | h
      · exact .inl h
      · refine .inr ?_
        have := moveAccountToOrgIdFromRoot_trace_no_create env aid cfg.organizationalUnitId e
        rw [heq] at this
        exact this h
    · rename_i b mtr heq
      intro e he
      simp only [HandlerResult.trace] at he
      rcases List.mem_append.mp he with h | h
      · rcases List.mem_append.mp h with h1 | h1
        · exact .inl h1
        · refine .inr ?_
          have := moveAccountToOrgIdFromRoot_trace_no_create env aid cfg.organizationalUnitId e
          rw [heq] at this
          exact this h1
      · refine .inr ?_
        unfold deleteSingleAccountConfigFromTable at h
        split at h <;> simp at h <;> subst h <;> rfl

/-- The trace of `handleSucceeded` contains no Create call. -/
theorem handleSucceeded_trace_no_create (env : Env) (s : Stores) (cfg : AccountConfig)
    (st : CreateAccountStatus) :
    ∀ e ∈ (handleSucceeded env s cfg st).trace, e.isCreate = false := by
  unfold handleSucceeded
  split
  · rename_i gid hgid
    split
    · simp
    · split
      · simp
      · rename_i aid haid aname hname
        intro e he
        rcases handleMove_trace_no_create env _ cfg st _ e he with h | h
        · unfold saveGovCloudAccountMapping at h
          split at h <;> simp at h <;> subst h <;> rfl
        · exact h
  · intro e he
    rcases handleMove_trace_no_create env s cfg st [] e he with h | h
    · simp at h
    · exact h

/-- The trace of the describe branch contains no Create call. -/
theorem describePath_trace_no_create (env : Env) (s : Stores) (cfg : AccountConfig)
    (rid : String) :
    ∀ e ∈ (describePath env s cfg rid).trace, e.isCreate = false := by
  unfold describePath
  split
  · simp [CallEvent.isCreate]
  · rename_i st heq
    split
    · simp [CallEvent.isCreate]
    · split
      · intro e he
        simp only [HandlerResult.trace, List.mem_cons] at he
        rcases he with rfl | h
        · rfl
        · exact handleSucceeded_trace_no_create env s cfg st e h
      · simp [CallEvent.isCreate]

/-- Every Create call in the trace of the create branch is the single
Create call for the selected request. -/
theorem createPath_trace_create (env : Env) (s : Stores) (cfg : AccountConfig) :
    ∀ e ∈ (createPath env s cfg).trace, e = createEvent cfg ∨ e.isCreate = false := by
  unfold createPath
  split
  · simp
  · rename_i st heq
    split
    · split
      · intro e he
        simp only [HandlerResult.trace, List.mem_cons] at he
        rcases he with rfl | h
        · exact .inl rfl
        · refine .inr ?_
          unfold updateAccountConfig at h
          split at h <;> simp at h <;> subst h <;> rfl
      · intro e he
        simp only [HandlerResult.trace, List.mem_cons] at he
        rcases he with rfl | h
        · exact .inl rfl
        · refine .inr ?_
          unfold updateAccountConfig at h
          split at h <;> simp at h <;> subst h <;> rfl
    · split
      · intro e he
        simp only [HandlerResult.trace, List.mem_cons] at he
        rcases he with rfl | h
        · exact .inl rfl
        · exact .inr (handleSucceeded_trace_no_create env s cfg st e h)
      · simp

/-- When the selected request is unsubmitted (`createRequestId` undefined or
empty), the invocation is the create branch. -/
theorem handler_eq_createPath (env : Env) (s : Stores) (cfg : AccountConfig)
    (rest : List AccountConfig)
    (hsel : getSingleAccountConfigFromTable s = cfg :: rest)
    (hfresh : cfg.createRequestId = none ∨ cfg.createRequestId = some "") :
    handler env s = createPath env s cfg := by
  unfold handler
  rw [hsel]
  rcases hfresh with h | h <;> simp [h]

/-- When the selected request was already submitted (a non-empty
`createRequestId`), the invocation is the describe branch. -/
theorem handler_eq_describePath (env : Env) (s : Stores) (cfg : AccountConfig)
    (rest : List AccountConfig) (rid : String)
    (hsel : getSingleAccountConfigFromTable s = cfg :: rest)
    (hrid : cfg.createRequestId = some rid) (hne : rid ≠ "") :
    handler env s = describePath env s cfg rid := by
  unfold handler
  rw [hsel]
  simp [hrid, hne]

/-- The create branch always performs its Create call. -/
theorem createEvent_mem_createPath (env : Env) (s : Stores) (cfg : AccountConfig) :
    createEvent cfg ∈ (createPath env s cfg).trace := by
  unfold createPath
  split
  · simp
  · split
    · split <;> simp
    · split <;> simp

/-- C1: at-most-once submission.  Any Create call in an invocation's trace
is the single Create call for the selected request, and implies that
request's `createRequestId` was undefined or the empty string — so once a
`creationRequestId` is set, no invocation calls Create again for that key. -/
theorem atMostOnceSubmission (env : Env) (s : Stores) (e : CallEvent)
    (he : e ∈ (handler env s).trace) (hc : e.isCreate = true) :
    ∃ cfg, cfg ∈ getSingleAccountConfigFromTable s ∧
      (cfg.createRequestId = none ∨ cfg.createRequestId = some "") ∧
      e = createEvent cfg := by
  unfold handler at he
  cases h : getSingleAccountConfigFromTable s with
  | nil =>
    simp only [h] at he
    simp at he
  | cons cfg rest =>
    simp only [h] at he
    cases hcr : cfg.createRequestId with
    | none =>
      simp only [hcr] at he
      rcases createPath_trace_create env s cfg e he with h1 | h1
      · exact ⟨cfg, by simp [h], .inl hcr, h1⟩
      · rw [hc] at h1; cases h1
    | some rid =>
      simp only [hcr] at he
      by_cases hr : rid = ""
      · subst hr
        simp only [if_pos rfl] at he
        rcases createPath_trace_create env s cfg e he with h1 | h1
        · exact ⟨cfg, by simp [h], .inr hcr, h1⟩
        · rw [hc] at h1; cases h1
      · simp only [if_neg hr] at he
        have h2 := describePath_trace_no_create env s cfg rid e he
        rw [hc] at h2
        cases h2

/-- Witness for C1: in the scenario's first call, a Create call occurs for
the unsubmitted request. -/
theorem atMostOnceSubmission_witness :
    ∃ cfg, cfg ∈ getSingleAccountConfigFromTable scenarioStore ∧
      (cfg.createRequestId = none ∨ cfg.createRequestId = some "") ∧
      CallEvent.createOrg "a@x.com" "Acct" = createEvent cfg :=
  atMostOnceSubmission scenarioEnv scenarioStore
    (CallEvent.createOrg "a@x.com" "Acct") (by decide) (by decide)

/-- C9: variant selection is an exact string match: for a selected
unsubmitted request, the GovCloud Create variant is called iff the stored
`enableGovCloud` is exactly the string "true", and the standard variant is
called iff it is any other string (including "True" or "TRUE"). -/
theorem variantSelectionExactMatch (env : Env) (s : Stores) (cfg : AccountConfig)
    (rest : List AccountConfig)
    (hsel : getSingleAccountConfigFromTable s = cfg :: rest)
    (hfresh : cfg.createRequestId = none ∨ cfg.createRequestId = some "") :
    ((CallEvent.createGov cfg.email cfg.name ∈ (handler env s).trace) ↔
      cfg.enableGovCloud = "true") ∧
    ((CallEvent.createOrg cfg.email cfg.name ∈ (handler env s).trace) ↔
      cfg.enableGovCloud ≠ "true") := by
  rw [handler_eq_createPath env s cfg rest hsel hfresh]
  constructor
  · constructor
    · intro hm
      by_contra hg
      rcases createPath_trace_create env s cfg _ hm with h1 | h1
      · rw [show createEvent cfg = CallEvent.createOrg cfg.email cfg.name from by
          simp [createEvent, hg]] at h1
        simp at h1
      · simp [CallEvent.isCreate] at h1
    · intro hg
      have h2 := createEvent_mem_createPath env s cfg
      rwa [show createEvent cfg = CallEvent.createGov cfg.email cfg.name from by
        simp [createEvent, hg]] at h2
  · constructor
    · intro hm hg
      rcases createPath_trace_create env s cfg _ hm with h1 | h1
      · rw [show createEvent cfg = CallEvent.createGov cfg.email cfg.name from by
          simp [createEvent, hg]] at h1
        simp at h1
      · simp [CallEvent.isCreate] at h1
    · intro hg
      have h2 := createEvent_mem_createPath env s cfg
      rwa [show createEvent cfg = CallEvent.createOrg cfg.email cfg.name from by
        simp [createEvent, hg]] at h2

/-- Witness for C9: a request whose flag holds the string "True" goes to
the standard (non-GovCloud) Create variant. -/
theorem variantSelectionExactMatch_witness :
    ((CallEvent.createGov mixedCaseCfg.email mixedCaseCfg.name ∈
        (handler scenarioEnv mixedCaseStore).trace) ↔
      mixedCaseCfg.enableGovCloud = "true") ∧
    ((CallEvent.createOrg mixedCaseCfg.email mixedCaseCfg.name ∈
        (handler scenarioEnv mixedCaseStore).trace) ↔
      mixedCaseCfg.enableGovCloud ≠ "true") :=
  variantSelectionExactMatch scenarioEnv mixedCaseStore mixedCaseCfg []
    (by decide) (Or.inl (by decide))

/-- C7: frame property of the waiting branch: when the selected request was
already submitted and Describe-Status reports `IN_PROGRESS`, the invocation
returns `complete = false` and writes to neither store — the trace is
exactly the one Describe-Status call. -/
theorem waitingBranchFrame (env : Env) (s : Stores) (cfg : AccountConfig)
    (rest : List AccountConfig) (rid : String) (st : CreateAccountStatus)
    (hsel : getSingleAccountConfigFromTable s = cfg :: rest)
    (hrid : cfg.createRequestId = some rid) (hne : rid ≠ "")
    (hresp : (env.describeCreateAccountStatus rid).CreateAccountStatus = some st)
    (hprog : st.State = some "IN_PROGRESS") :
    (handler env s).outcome = .ok false ∧ (handler env s).stores = s ∧
      (handler env s).trace = [CallEvent.describeStatus rid] := by
  rw [handler_eq_describePath env s cfg rest rid hsel hrid hne]
  unfold describePath
  simp only [hresp]
  simp [hprog]

/-- Witness for C7: a submitted request whose status check reports
in-progress leaves the stores untouched. -/
theorem waitingBranchFrame_witness :
    (handler waitingEnv submittedStore).outcome = .ok false ∧
    (handler waitingEnv submittedStore).stores = submittedStore ∧
    (handler waitingEnv submittedStore).trace = [CallEvent.describeStatus "req-1"] :=
  waitingBranchFrame waitingEnv submittedStore submittedCfg [] "req-1"
    { State := some "IN_PROGRESS", Id := some "req-1", AccountId := none,
      GovCloudAccountId := none, AccountName := none, FailureReason := none }
    (by decide) (by decide) (by decide) (by decide) (by decide)

/-- C4: in the fresh-request branch, when Create returns accepted-but-pending
(`IN_PROGRESS`), the returned request id is put onto the stored record for
that email; a confirmed write yields `complete = false`, an unconfirmed
write aborts with the update error (never a normal result). -/
theorem pendingPersistsRequestId (env : Env) (s : Stores) (cfg : AccountConfig)
    (rest : List AccountConfig) (st : CreateAccountStatus)
    (hsel : getSingleAccountConfigFromTable s = cfg :: rest)
    (hfresh : cfg.createRequestId = none ∨ cfg.createRequestId = some "")
    (hresp : (createResp env cfg).CreateAccountStatus = some st)
    (hprog : st.State = some "IN_PROGRESS") :
    CallEvent.putRequest cfg.email { cfg with createRequestId := st.Id } ∈
      (handler env s).trace ∧
    (env.putRequestStatusCode = 200 →
      (handler env s).outcome = .ok false ∧
      (handler env s).stores.requests =
        upsertRequestRow s.requests cfg.email { cfg with createRequestId := st.Id }) ∧
    (env.putRequestStatusCode ≠ 200 →
      (handler env s).outcome = .errorUpdateFailed ∧
      (handler env s).stores = s) := by
  rw [handler_eq_createPath env s cfg rest hsel hfresh]
  unfold createPath
  simp only [hresp]
  by_cases hp : env.putRequestStatusCode = 200 <;>
    simp [hprog, updateAccountConfig, hp]

/-- Witness for C4 at the scenario's first call. -/
theorem pendingPersistsRequestId_witness :
    CallEvent.putRequest scenarioCfg.email
        { scenarioCfg with createRequestId := some "req-1" } ∈
      (handler scenarioEnv scenarioStore).trace ∧
    (scenarioEnv.putRequestStatusCode = 200 →
      (handler scenarioEnv scenarioStore).outcome = .ok false ∧
      (handler scenarioEnv scenarioStore).stores.requests =
        upsertRequestRow scenarioStore.requests scenarioCfg.email
          { scenarioCfg with createRequestId := some "req-1" }) ∧
    (scenarioEnv.putRequestStatusCode ≠ 200 →
      (handler scenarioEnv scenarioStore).outcome = .errorUpdateFailed ∧
      (handler scenarioEnv scenarioStore).stores = scenarioStore) :=
  pendingPersistsRequestId scenarioEnv scenarioStore scenarioCfg []
    { State := some "IN_PROGRESS", Id := some "req-1", AccountId := none,
      GovCloudAccountId := none, AccountName := none, FailureReason := none }
    (by decide) (Or.inl (by decide)) (by decide) (by decide)

/-- Under `RootOk`, the move-then-delete tail never aborts on a
dereference once the account id is present. -/
theorem handleMove_no_deref (env : Env) (s : Stores) (cfg : AccountConfig)
    (st : CreateAccountStatus) (tr : List CallEvent) (aid : String)
    (haid : st.AccountId = some aid) (hroot : RootOk env) :
    (handleMove env s cfg st tr).outcome ≠ .errorDeref := by
  unfold handleMove
  rcases hroot with ⟨rootOrg, hfind, hid⟩
  simp only [haid]
  unfold moveAccountToOrgIdFromRoot
  rw [hfind]
  cases hrid : rootOrg.Id with
  | none => exact absurd hrid hid
  | some rootId => simp [hrid]

/-- Under the status and root preconditions, the success tail never aborts
on a dereference. -/
theorem handleSucceeded_no_deref (env : Env) (s : Stores) (cfg : AccountConfig)
    (st : CreateAccountStatus)
    (hgood : st.AccountId ≠ none ∧ (st.GovCloudAccountId ≠ none → st.AccountName ≠ none))
    (hroot : RootOk env) :
    (handleSucceeded env s cfg st).outcome ≠ .errorDeref := by
  obtain ⟨haid, hname⟩ := hgood
  cases haid2 : st.AccountId with
  | none => exact absurd haid2 haid
  | some aid =>
    unfold handleSucceeded
    cases hgov : st.GovCloudAccountId with
    | none => exact handleMove_no_deref env s cfg st [] aid haid2 hroot
    | some gid =>
      simp only [haid2]
      cases hn : st.AccountName with
      | none => exact absurd hn (hname (by simp [hgov]))
      | some aname => exact handleMove_no_deref env _ cfg st _ aid haid2 hroot

/-- Under the preconditions, the create branch never aborts on a
dereference. -/
theorem createPath_no_deref (env : Env) (s : Stores) (cfg : AccountConfig)
    (hgood : GoodStatus (createResp env cfg)) (hroot : RootOk env) :
    (createPath env s cfg).outcome ≠ .errorDeref := by
  unfold createPath
  cases hresp : (createResp env cfg).CreateAccountStatus with
  | none => simp
  | some st =>
    dsimp only
    by_cases h1 : st.State = some "IN_PROGRESS"
    · rw [if_pos h1]
      split <;> simp
    · by_cases h2 : st.State = some "SUCCEEDED"
      · have h3 := handleSucceeded_no_deref env s cfg st (hgood st hresp h2) hroot
        simp [h1, h2, h3]
      · simp [h1, h2]

/-- Under the preconditions, the describe branch never aborts on a
dereference. -/
theorem describePath_no_deref (env : Env) (s : Stores) (cfg : AccountConfig)
    (rid : String) (hgood : GoodStatus (env.describeCreateAccountStatus rid))
    (hroot : RootOk env) :
    (describePath env s cfg rid).outcome ≠ .errorDeref := by
  unfold describePath
  cases hresp : (env.describeCreateAccountStatus rid).CreateAccountStatus with
  | none => simp
  | some st =>
    by_cases h1 : st.State = some "IN_PROGRESS"
    · simp [h1]
    · by_cases h2 : st.State = some "SUCCEEDED"
      · have h3 := handleSucceeded_no_deref env s cfg st (hgood st hresp h2) hroot
        simp [h1, h2, h3]
      · simp [h1, h2]

/-- C10: under the preconditions that every `SUCCEEDED` response carries an
`AccountId` (and an `AccountName` whenever a `GovCloudAccountId` is
present) and that list-roots yields a root named "Root" with an id, the
handler's unguarded success-path dereferences never abort an invocation. -/
theorem succeededDerefSafe (env : Env) (s : Stores) (h : GoodEnv env) :
    (handler env s).outcome ≠ .errorDeref := by
  obtain ⟨hOrg, hGov, hDesc, hRoot⟩ := h
  have hCreate : ∀ cfg : AccountConfig, GoodStatus (createResp env cfg) := by
    intro cfg
    unfold createResp
    split
    · exact hGov cfg.email cfg.name
    · exact hOrg cfg.email cfg.name
  cases hsel : getSingleAccountConfigFromTable s with
  | nil =>
    unfold handler
    rw [hsel]
    simp
  | cons cfg rest =>
    cases hcr : cfg.createRequestId with
    | none =>
      rw [handler_eq_createPath env s cfg rest hsel (.inl hcr)]
      exact createPath_no_deref env s cfg (hCreate cfg) hRoot
    | some rid =>
      by_cases hr : rid = ""
      · rw [handler_eq_createPath env s cfg rest hsel (.inr (by rw [hcr, hr]))]
        exact createPath_no_deref env s cfg (hCreate cfg) hRoot
      · rw [handler_eq_describePath env s cfg rest rid hsel hcr hr]
        exact describePath_no_deref env s cfg rid (hDesc rid) hRoot

/-- Witness for C10: the scenario environment satisfies the preconditions,
so the invocation on the submitted store cannot abort on a dereference. -/
theorem succeededDerefSafe_witness :
    (handler scenarioEnv submittedStore).outcome ≠ .errorDeref :=
  succeededDerefSafe scenarioEnv submittedStore
    (by
      refine ⟨?_, ?_, ?_, ⟨{ Id := some "r-1", Name := some "Root" }, by decide, by decide⟩⟩
      · intro email name st hst hsucc
        simp [scenarioEnv, inProgressResp] at hst
        subst hst
        simp at hsucc
      · intro email name st hst hsucc
        simp [scenarioEnv, failedResp] at hst
        subst hst
        simp at hsucc
      · intro rid st hst hsucc
        by_cases hr : rid = "req-1"
        · simp [scenarioEnv, succeededResp, hr] at hst
          subst hst
          simp
        · simp [scenarioEnv, failedResp, hr] at hst
          subst hst
          simp at hsucc)

/-- `saveGovCloudAccountMapping` never touches the request table. -/
theorem saveGovCloudAccountMapping_requests (env : Env) (s : Stores)
    (a g n : String) :
    ((saveGovCloudAccountMapping env s a g n).2.1).requests = s.requests := by
  unfold saveGovCloudAccountMapping
  split <;> rfl

/-- An unconfirmed mapping put leaves the stores unchanged. -/
theorem saveGovCloudAccountMapping_fail (env : Env) (s : Stores) (a g n : String)
    (h : env.putMappingStatusCode ≠ 200) :
    (saveGovCloudAccountMapping env s a g n).2.1 = s := by
  unfold saveGovCloudAccountMapping
  simp [h]

/-- The delete never touches the mapping table. -/
theorem deleteSingleAccountConfigFromTable_mappings (env : Env) (s : Stores)
    (email : String) :
    ((deleteSingleAccountConfigFromTable env s email).2.1).mappings = s.mappings := by
  unfold deleteSingleAccountConfigFromTable
  split <;> rfl

/-- An unconfirmed delete leaves the stores unchanged. -/
theorem deleteSingleAccountConfigFromTable_fail (env : Env) (s : Stores)
    (email : String) (h : env.deleteStatusCode ≠ 200) :
    (deleteSingleAccountConfigFromTable env s email).2.1 = s := by
  unfold deleteSingleAccountConfigFromTable
  simp [h]

/-- A confirmed delete removes the rows keyed by the email. -/
theorem deleteSingleAccountConfigFromTable_ok (env : Env) (s : Stores)
    (email : String) (h : env.deleteStatusCode = 200) :
    (deleteSingleAccountConfigFromTable env s email).2.1 =
      { s with requests := s.requests.filter (fun r => !(r.1 == email)) } := by
  unfold deleteSingleAccountConfigFromTable
  simp [h]

/-- When the list of roots has no root named "Root", the move-then-delete
tail aborts on the dereference and leaves the stores unchanged. -/
theorem handleMove_rootMissing (env : Env) (s : Stores) (cfg : AccountConfig)
    (st : CreateAccountStatus) (tr : List CallEvent)
    (hfind : env.listRoots.find? (fun item => item.Name == some "Root") = none) :
    (handleMove env s cfg st tr).outcome = .errorDeref ∧
      (handleMove env s cfg st tr).stores = s := by
  unfold handleMove
  cases st.AccountId with
  | none => exact ⟨rfl, rfl⟩
  | some aid =>
    unfold moveAccountToOrgIdFromRoot
    rw [hfind]
    exact ⟨rfl, rfl⟩

/-- When the list of roots has no root named "Root", the success tail
aborts on the dereference and leaves the request table unchanged. -/
theorem handleSucceeded_rootMissing (env : Env) (s : Stores) (cfg : AccountConfig)
    (st : CreateAccountStatus)
    (hfind : env.listRoots.find? (fun item => item.Name == some "Root") = none) :
    (handleSucceeded env s cfg st).outcome = .errorDeref ∧
      (handleSucceeded env s cfg st).stores.requests = s.requests := by
  unfold handleSucceeded
  cases st.GovCloudAccountId with
  | none =>
    have h := handleMove_rootMissing env s cfg st [] hfind
    exact ⟨h.1, by rw [h.2]⟩
  | some gid =>
    cases st.AccountId with
    | none => exact ⟨rfl, rfl⟩
    | some aid =>
      cases st.AccountName with
      | none => exact ⟨rfl, rfl⟩
      | some aname =>
        have h := handleMove_rootMissing env
          (saveGovCloudAccountMapping env s aid gid aname).2.1 cfg st
          (saveGovCloudAccountMapping env s aid gid aname).2.2 hfind
        exact ⟨h.1, by rw [h.2, saveGovCloudAccountMapping_requests]⟩

/-- Computation of the move-then-delete tail when the account id, the root
and its id are all present: the move's status is ignored and the delete
always follows. -/
theorem handleMove_spec (env : Env) (s : Stores) (cfg : AccountConfig)
    (st : CreateAccountStatus) (tr : List CallEvent) (aid rootId : String)
    (rootOrg : Root) (haid : st.AccountId = some aid)
    (hfind : env.listRoots.find? (fun item => item.Name == some "Root") = some rootOrg)
    (hrid : rootOrg.Id = some rootId) :
    handleMove env s cfg st tr =
      ⟨.ok false, (deleteSingleAccountConfigFromTable env s cfg.email).2.1,
        tr ++ [CallEvent.listRootsCall,
               CallEvent.moveAccount aid cfg.organizationalUnitId rootId]
           ++ (deleteSingleAccountConfigFromTable env s cfg.email).2.2⟩ := by
  unfold handleMove
  simp only [haid]
  unfold moveAccountToOrgIdFromRoot
  rw [hfind]
  simp [hrid]

/-- The success tail skips the mapping write when no GovCloud account id is
present. -/
theorem handleSucceeded_noGov (env : Env) (s : Stores) (cfg : AccountConfig)
    (st : CreateAccountStatus) (hgov : st.GovCloudAccountId = none) :
    handleSucceeded env s cfg st = handleMove env s cfg st [] := by
  unfold handleSucceeded
  rw [hgov]

/-- The success tail performs the mapping write first when a GovCloud
account id is present. -/
theorem handleSucceeded_gov (env : Env) (s : Stores) (cfg : AccountConfig)
    (st : CreateAccountStatus) (gid aid aname : String)
    (hgov : st.GovCloudAccountId = some gid) (haid : st.AccountId = some aid)
    (hname : st.AccountName = some aname) :
    handleSucceeded env s cfg st =
      handleMove env (saveGovCloudAccountMapping env s aid gid aname).2.1 cfg st
        (saveGovCloudAccountMapping env s aid gid aname).2.2 := by
  unfold handleSucceeded
  rw [hgov]
  simp only [haid, hname]

/-- Reduction of the handler on the describe branch when the status check
reports `SUCCEEDED`. -/
theorem handler_describe_succeeded (env : Env) (s : Stores) (cfg : AccountConfig)
    (rest : List AccountConfig) (rid : String) (st : CreateAccountStatus)
    (hsel : getSingleAccountConfigFromTable s = cfg :: rest)
    (hrid : cfg.createRequestId = some rid) (hne : rid ≠ "")
    (hresp : (env.describeCreateAccountStatus rid).CreateAccountStatus = some st)
    (hsucc : st.State = some "SUCCEEDED") :
    handler env s =
      ⟨(handleSucceeded env s cfg st).outcome, (handleSucceeded env s cfg st).stores,
        CallEvent.describeStatus rid :: (handleSucceeded env s cfg st).trace⟩ := by
  rw [handler_eq_describePath env s cfg rest rid hsel hrid hne]
  unfold describePath
  simp only [hresp]
  rw [if_neg (by simp [hsucc]), if_pos hsucc]

/-- Counterexample to C2 as stated: with the submitted request's status
check reporting `SUCCEEDED`, a move call reporting status 500 does not
abort the invocation — it returns `complete = false` and the request row
is deleted anyway. -/
theorem placementMoveFailureNotFatal_cex :
    moveFailEnv.moveStatusCode ≠ 200 ∧
    (handler moveFailEnv submittedStore).outcome = .ok false ∧
    (handler moveFailEnv submittedStore).stores.requests = [] ∧
    CallEvent.moveAccount "111" "ou-1" "r-1" ∈
      (handler moveFailEnv submittedStore).trace := by
  decide

/-- C2 corrected: on the describe branch with a `SUCCEEDED` status, a
missing default root aborts the invocation (the dereference error) and
preserves the request row; but a move call reporting a non-success status
does NOT abort — its failure is only logged, the row is still deleted
(when the delete confirms) and the invocation returns `complete = false`. -/
theorem placementFailureAmended :
    (∀ (env : Env) (s : Stores) (cfg : AccountConfig) (rest : List AccountConfig)
        (rid : String) (st : CreateAccountStatus),
      getSingleAccountConfigFromTable s = cfg :: rest →
      cfg.createRequestId = some rid → rid ≠ "" →
      (env.describeCreateAccountStatus rid).CreateAccountStatus = some st →
      st.State = some "SUCCEEDED" →
      env.listRoots.find? (fun item => item.Name == some "Root") = none →
      (handler env s).outcome = .errorDeref ∧
        (handler env s).stores.requests = s.requests) ∧
    (∀ (env : Env) (s : Stores) (cfg : AccountConfig) (rest : List AccountConfig)
        (rid aid rootId : String) (st : CreateAccountStatus) (rootOrg : Root),
      getSingleAccountConfigFromTable s = cfg :: rest →
      cfg.createRequestId = some rid → rid ≠ "" →
      (env.describeCreateAccountStatus rid).CreateAccountStatus = some st →
      st.State = some "SUCCEEDED" → st.GovCloudAccountId = none →
      st.AccountId = some aid →
      env.listRoots.find? (fun item => item.Name == some "Root") = some rootOrg →
      rootOrg.Id = some rootId →
      env.moveStatusCode ≠ 200 → env.deleteStatusCode = 200 →
      (handler env s).outcome = .ok false ∧
        (handler env s).stores.requests =
          s.requests.filter (fun r => !(r.1 == cfg.email))) := by
  constructor
  · intro env s cfg rest rid st hsel hrid hne hresp hsucc hfind
    rw [handler_describe_succeeded env s cfg rest rid st hsel hrid hne hresp hsucc]
    exact ⟨(handleSucceeded_rootMissing env s cfg st hfind).1,
      (handleSucceeded_rootMissing env s cfg st hfind).2⟩
  · intro env s cfg rest rid aid rootId st rootOrg hsel hrid hne hresp hsucc hgov
      haid hfind hrootid hmv hdel
    rw [handler_describe_succeeded env s cfg rest rid st hsel hrid hne hresp hsucc]
    rw [handleSucceeded_noGov env s cfg st hgov]
    rw [handleMove_spec env s cfg st [] aid rootId rootOrg haid hfind hrootid]
    rw [deleteSingleAccountConfigFromTable_ok env s cfg.email hdel]
    exact ⟨rfl, rfl⟩

/-- Witness for the amended C2 at concrete environments: a missing root
aborts and preserves the row; a failed move is ignored and the row goes. -/
theorem placementFailureAmended_witness :
    ((handler noRootEnv submittedStore).outcome = .errorDeref ∧
      (handler noRootEnv submittedStore).stores.requests = submittedStore.requests) ∧
    ((handler moveFailEnv submittedStore).outcome = .ok false ∧
      (handler moveFailEnv submittedStore).stores.requests =
        submittedStore.requests.filter (fun r => !(r.1 == submittedCfg.email))) :=
  ⟨placementFailureAmended.1 noRootEnv submittedStore submittedCfg [] "req-1"
      { State := some "SUCCEEDED", Id := none, AccountId := some "111",
        GovCloudAccountId := none, AccountName := none, FailureReason := none }
      (by decide) (by decide) (by decide) (by decide) (by decide) (by decide),
   placementFailureAmended.2 moveFailEnv submittedStore submittedCfg [] "req-1"
      "111" "r-1"
      { State := some "SUCCEEDED", Id := none, AccountId := some "111",
        GovCloudAccountId := none, AccountName := none, FailureReason := none }
      { Id := some "r-1", Name := some "Root" }
      (by decide) (by decide) (by decide) (by decide) (by decide) (by decide)
      (by decide) (by decide) (by decide) (by decide) (by decide)⟩

/-- Counterexample to C3 as stated: a delete of the request row that does
not confirm success is silently ignored — the invocation returns
`complete = false` instead of aborting. -/
theorem storeWriteFailureNotFatal_cex :
    deleteFailEnv.deleteStatusCode ≠ 200 ∧
    CallEvent.deleteRequest "a@x.com" ∈
      (handler deleteFailEnv submittedStore).trace ∧
    (handler deleteFailEnv submittedStore).outcome = .ok false := by
  decide

/-- C3 corrected: only the write persisting the request id is checked — its
failure aborts with the update error; an unconfirmed delete of the request
row and an unconfirmed IdentityMapping put are ignored (their false result
is discarded) and the invocation still returns `complete = false` with the
failed write not applied. -/
theorem storeWriteFailurePolicyAmended :
    (∀ (env : Env) (s : Stores) (cfg : AccountConfig) (rest : List AccountConfig)
        (st : CreateAccountStatus),
      getSingleAccountConfigFromTable s = cfg :: rest →
      (cfg.createRequestId = none ∨ cfg.createRequestId = some "") →
      (createResp env cfg).CreateAccountStatus = some st →
      st.State = some "IN_PROGRESS" →
      env.putRequestStatusCode ≠ 200 →
      (handler env s).outcome = .errorUpdateFailed) ∧
    (∀ (env : Env) (s : Stores) (cfg : AccountConfig) (rest : List AccountConfig)
        (rid aid rootId : String) (st : CreateAccountStatus) (rootOrg : Root),
      getSingleAccountConfigFromTable s = cfg :: rest →
      cfg.createRequestId = some rid → rid ≠ "" →
      (env.describeCreateAccountStatus rid).CreateAccountStatus = some st →
      st.State = some "SUCCEEDED" → st.GovCloudAccountId = none →
      st.AccountId = some aid →
      env.listRoots.find? (fun item => item.Name == some "Root") = some rootOrg →
      rootOrg.Id = some rootId →
      env.deleteStatusCode ≠ 200 →
      (handler env s).outcome = .ok false ∧
        (handler env s).stores.requests = s.requests) ∧
    (∀ (env : Env) (s : Stores) (cfg : AccountConfig) (rest : List AccountConfig)
        (rid aid gid aname rootId : String) (st : CreateAccountStatus) (rootOrg : Root),
      getSingleAccountConfigFromTable s = cfg :: rest →
      cfg.createRequestId = some rid → rid ≠ "" →
      (env.describeCreateAccountStatus rid).CreateAccountStatus = some st →
      st.State = some "SUCCEEDED" → st.GovCloudAccountId = some gid →
      st.AccountId = some aid → st.AccountName = some aname →
      env.listRoots.find? (fun item => item.Name == some "Root") = some rootOrg →
      rootOrg.Id = some rootId →
      env.putMappingStatusCode ≠ 200 →
      (handler env s).outcome = .ok false ∧
        (handler env s).stores.mappings = s.mappings) := by
  refine ⟨?_, ?_, ?_⟩
  · intro env s cfg rest st hsel hfresh hresp hprog hput
    rw [handler_eq_createPath env s cfg rest hsel hfresh]
    unfold createPath
    simp only [hresp]
    rw [if_pos hprog]
    simp [updateAccountConfig, hput]
  · intro env s cfg rest rid aid rootId st rootOrg hsel hrid hne hresp hsucc hgov
      haid hfind hrootid hdel
    rw [handler_describe_succeeded env s cfg rest rid st hsel hrid hne hresp hsucc]
    rw [handleSucceeded_noGov env s cfg st hgov]
    rw [handleMove_spec env s cfg st [] aid rootId rootOrg haid hfind hrootid]
    rw [deleteSingleAccountConfigFromTable_fail env s cfg.email hdel]
    exact ⟨rfl, rfl⟩
  · intro env s cfg rest rid aid gid aname rootId st rootOrg hsel hrid hne hresp
      hsucc hgov haid hname hfind hrootid hmap
    rw [handler_describe_succeeded env s cfg rest rid st hsel hrid hne hresp hsucc]
    rw [handleSucceeded_gov env s cfg st gid aid aname hgov haid hname]
    rw [saveGovCloudAccountMapping_fail env s aid gid aname hmap]
    rw [handleMove_spec env s cfg st _ aid rootId rootOrg haid hfind hrootid]
    exact ⟨rfl, deleteSingleAccountConfigFromTable_mappings env s cfg.email⟩

/-- Witness for the amended C3 at concrete environments. -/
theorem storeWriteFailurePolicyAmended_witness :
    (handler putFailEnv scenarioStore).outcome = .errorUpdateFailed ∧
    ((handler deleteFailEnv submittedStore).outcome = .ok false ∧
      (handler deleteFailEnv submittedStore).stores.requests = submittedStore.requests) ∧
    ((handler mappingFailEnv submittedStore).outcome = .ok false ∧
      (handler mappingFailEnv submittedStore).stores.mappings = submittedStore.mappings) :=
  ⟨storeWriteFailurePolicyAmended.1 putFailEnv scenarioStore scenarioCfg []
      { State := some "IN_PROGRESS", Id := some "req-1", AccountId := none,
        GovCloudAccountId := none, AccountName := none, FailureReason := none }
      (by decide) (Or.inl (by decide)) (by decide) (by decide) (by decide),
   storeWriteFailurePolicyAmended.2.1 deleteFailEnv submittedStore submittedCfg []
      "req-1" "111" "r-1"
      { State := some "SUCCEEDED", Id := none, AccountId := some "111",
        GovCloudAccountId := none, AccountName := none, FailureReason := none }
      { Id := some "r-1", Name := some "Root" }
      (by decide) (by decide) (by decide) (by decide) (by decide) (by decide)
      (by decide) (by decide) (by decide) (by decide),
   storeWriteFailurePolicyAmended.2.2 mappingFailEnv submittedStore submittedCfg []
      "req-1" "111" "g-111" "Acct" "r-1"
      { State := some "SUCCEEDED", Id := none, AccountId := some "111",
        GovCloudAccountId := some "g-111", AccountName := some "Acct",
        FailureReason := none }
      { Id := some "r-1", Name := some "Root" }
      (by decide) (by decide) (by decide) (by decide) (by decide) (by decide)
      (by decide) (by decide) (by decide) (by decide) (by decide)⟩
